import Mathlib

/-!
Verification of the Argon launcher's resolution/fetch/assemble pipeline.

Shallow embedding of the Python sources:
  argon/util.py      : rule evaluation, natives lookup, classpath, argument
                       templating, sha1 file validation
  argon/version.py   : inheritance following, asset/library downloading
  argon/argon.py     : leaf-jar content patch inside Argon.play

Conventions of the embedding:
  * Python dicts that the code iterates over are modelled as association
    lists (insertion order = list order, matching CPython dict semantics).
  * A raised exception is an `Except.error`; the error type's constructors
    are named after the Python exception actually raised.
  * The ambient platform (`platform.architecture()`, `shared.SYSTEM_TARGET`)
    is threaded explicitly as a `Platform` value.
  * Network traffic is made observable: download operations return the list
    of URLs they would request, derived from the local file store.
-/

namespace Argon

/-- The ambient platform: `target` is `shared.SYSTEM_TARGET` (one of
"windows"/"osx"/"linux" on supported systems) and `arch` is
`platform.architecture()[0][:2]` (normally "64" or "32"). -/
structure Platform where
  target : String
  arch : String
deriving DecidableEq, Repr

/-- One entry of a rule's `os` dict (`util.should_use_rule` iterates
`rule["os"].items()`). -/
abbrev OsCond := List (String × String)

/-- A rule attached to a library or conditional-argument node.
`features` records whether a `"features"` key is present; `os` is the
optional `"os"` dict. -/
structure Rule where
  features : Bool
  action : String
  os : Option OsCond
deriving DecidableEq, Repr

/-- The `for k, v in rule["os"].items()` loop of `util.should_use_rule`
(src/argon/util.py lines 51-61): the first matching `name`/`arch` entry
returns `allow`; falling off the loop returns `not allow`. -/
def osItemsLoop (p : Platform) (allow : Bool) : OsCond → Bool
  | [] => !allow
  | (k, v) :: rest =>
    if k = "name" then
      if v = p.target then allow else osItemsLoop p allow rest
    else if k = "arch" then
      if v = "x86" ∧ p.arch = "32" then allow
      else if v = "x64" ∧ p.arch = "64" then allow
      else osItemsLoop p allow rest
    else osItemsLoop p allow rest

/-- `util.should_use_rule` (src/argon/util.py lines 38-61). -/
def should_use_rule (p : Platform) (r : Rule) : Bool :=
  if r.features then false
  else
    let allow := r.action = "allow"
    match r.os with
    | none => allow
    | some os => osItemsLoop p allow os

/-- A library as far as rule filtering is concerned: `rules` is `none` when
the `"rules"` key is absent, `some rs` (possibly empty) when present. -/
structure RuledLibrary where
  rules : Option (List Rule)
deriving DecidableEq, Repr

/-- `util.should_use_library` (src/argon/util.py lines 64-68):
no `"rules"` key means include; otherwise `any` over the per-rule results. -/
def should_use_library (p : Platform) (l : RuledLibrary) : Bool :=
  match l.rules with
  | none => true
  | some rs => rs.any (should_use_rule p)

/-- Library whose only rule is `{action: deny, os: {name: "osx"}}`. -/
def osxDenyLib : RuledLibrary :=
  ⟨some [⟨false, "deny", some [("name", "osx")]⟩]⟩

/-- Library whose only rule is `{action: allow, os: {name: "linux"}}`. -/
def linuxAllowLib : RuledLibrary :=
  ⟨some [⟨false, "allow", some [("name", "linux")]⟩]⟩

/-- Library carrying no `"rules"` key at all. -/
def noRulesLib : RuledLibrary := ⟨none⟩

/-- Library whose `"rules"` key is present but maps to the empty list. -/
def emptyRulesLib : RuledLibrary := ⟨some []⟩

/-- Python exceptions raised by the embedded fragments. -/
inductive PyErr where
  | unsupportedSystem (msg : String)
  | keyError (key : String)
  | valueError (msg : String)
  | indexError (msg : String)
  | fileNotFound (path : String)
deriving DecidableEq, Repr

/-- A library as consumed by `get_class_path`: Maven coordinate string
under `"name"`, optional `"rules"`, optional `"natives"` dict (an assoc
list keyed by OS name). -/
structure Library where
  name : String
  rules : Option (List Rule)
  natives : Option (List (String × String))
deriving DecidableEq, Repr

/-- View of a `Library` through the keys `should_use_library` reads. -/
def Library.ruled (l : Library) : RuledLibrary := ⟨l.rules⟩

/-- `util.get_natives_string` (src/argon/util.py lines 25-35): reject an
unrecognized architecture, return `none` when the `"natives"` key is
absent, and otherwise index the natives dict by `shared.SYSTEM_TARGET` —
a missing entry is a Python `KeyError` — substituting the arch token into
a found entry. -/
def get_natives_string (p : Platform) (l : Library) :
    Except PyErr (Option String) :=
  if ¬ (p.arch = "64" ∨ p.arch = "32") then
    .error (.unsupportedSystem "Unsupported architecture")
  else
    match l.natives with
    | none => .ok none
    | some natives =>
      match natives.lookup p.target with
      | none => .error (.keyError p.target)
      | some s => .ok (some (s.replace "${arch}" p.arch))

/-- Split a character list at every occurrence of `sep`, Python
`str.split(sep)` style (no collapsing, an empty input yields `[[]]`). -/
def pySplitAux (sep : Char) : List Char → List Char → List (List Char)
  | [], acc => [acc.reverse]
  | c :: cs, acc =>
    if c = sep then acc.reverse :: pySplitAux sep cs []
    else pySplitAux sep cs (c :: acc)

/-- Python `s.split(sep)` for a one-character separator. -/
def pySplit (sep : Char) (s : String) : List String :=
  (pySplitAux sep s.data []).map String.mk

/-- The `os.path.join` of the embedding; the path separator is fixed as
"/". -/
def pathJoin : List String → String
  | [] => ""
  | [p] => p
  | p :: rest => p ++ "/" ++ pathJoin rest

/-- A release definition as far as classpath assembly is concerned:
`"id"` plus the `"libraries"` list (`library.get("libraries", [])`,
so an absent key is the empty list). -/
structure VersionData where
  id : String
  libraries : List Library
deriving DecidableEq, Repr

/-- Jar path of one surviving library in `util.get_class_path` (lines
78-87): split the coordinate on ":", build the directory from the dotted
domain, and suffix the natives classifier when one applies. Unpacking a
coordinate without exactly three ":"-separated parts is a Python
`ValueError`. -/
def libraryJarPath (p : Platform) (minecraft : String) (l : Library) :
    Except PyErr String :=
  match pySplit ':' l.name with
  | [domain, name, version] => do
    let path := pathJoin ([minecraft, "libraries"]
      ++ pySplit '.' domain ++ [name, version])
    let native ← get_natives_string p l
    let file := match native with
      | none => name ++ "-" ++ version ++ ".jar"
      | some nat => name ++ "-" ++ version ++ "-" ++ nat ++ ".jar"
    pure (pathJoin [path, file])
  | _ => .error (.valueError "not enough values to unpack")

/-- The `for current in library.get("libraries", [])` loop of
`util.get_class_path` (lines 74-87): rule-filtered libraries contribute
their jar paths in declaration order. -/
def classPathLoop (p : Platform) (minecraft : String) :
    List Library → Except PyErr (List String)
  | [] => .ok []
  | l :: rest =>
    if ¬ should_use_library p l.ruled then classPathLoop p minecraft rest
    else do
      let jar ← libraryJarPath p minecraft l
      let tail ← classPathLoop p minecraft rest
      pure (jar :: tail)

/-- The release's own jar path `versions/<id>/<id>.jar` appended last by
`util.get_class_path` (lines 89-91). -/
def ownJarPath (minecraft : String) (v : VersionData) : String :=
  pathJoin [minecraft, "versions", v.id, v.id ++ ".jar"]

/-- `util.get_class_path` (src/argon/util.py lines 71-93). -/
def get_class_path (p : Platform) (v : VersionData) (minecraft : String) :
    Except PyErr (List String) := do
  let libs ← classPathLoop p minecraft v.libraries
  pure (libs ++ [ownJarPath minecraft v])

/-- Classpath assembled by `Argon.play` for a two-link chain
(src/argon/argon.py lines 273 and 294-296): the leaf's
`get_class_path` result, then the inherited definition's. -/
def playClassPath (p : Platform) (leaf base : VersionData)
    (minecraft : String) : Except PyErr (List String) := do
  let cp ← get_class_path p leaf minecraft
  let cpInherit ← get_class_path p base minecraft
  pure (cp ++ cpInherit)

/-- Library whose natives map has only a linux entry. -/
def linuxNativesLib : Library :=
  ⟨"org.lwjgl:lwjgl-platform:2.9.4", none, some [("linux", "natives-linux")]⟩

/-- Library whose natives map has a windows entry with an arch token. -/
def winNativesLib : Library :=
  ⟨"org.lwjgl:lwjgl-platform:2.9.4", none,
   some [("windows", "natives-windows-${arch}")]⟩

/-- Characters matched by the regex class `[a-zA-Z_]` in
`util.create_arguments`. -/
def isIdentChar (c : Char) : Bool := c.isAlpha || c = '_'

/-- State of the left-to-right scan performing
`re.sub(r"\$({[a-zA-Z_]+})", "\g<1>", data)` (src/argon/util.py line 98):
`normal` is outside any candidate match, `sawDollar` is just after a `$`,
and `inBrace acc` is after `${` having read the identifier characters
`acc`. -/
inductive SubState where
  | normal
  | sawDollar
  | inBrace (acc : List Char)
deriving DecidableEq, Repr

/-- Single pass of the regex substitution: a maximal `$\x7b[a-zA-Z_]+\x7d`
match is replaced by its group (the `$` is dropped); on a failed candidate
the consumed characters are emitted unchanged and scanning resumes at the
current character (a fresh match can only start at a later `$`, so no
backtracking is needed — this mirrors the regex engine advancing one
position after a failed attempt). -/
def subDollarSM : SubState → List Char → List Char
  | .normal, [] => []
  | .sawDollar, [] => ['$']
  | .inBrace acc, [] => '$' :: '{' :: acc
  | .normal, c :: cs =>
    if c = '$' then subDollarSM .sawDollar cs
    else c :: subDollarSM .normal cs
  | .sawDollar, c :: cs =>
    if c = '{' then subDollarSM (.inBrace []) cs
    else if c = '$' then '$' :: subDollarSM .sawDollar cs
    else '$' :: c :: subDollarSM .normal cs
  | .inBrace acc, c :: cs =>
    if c = '}' then
      if acc.isEmpty then '$' :: '{' :: '}' :: subDollarSM .normal cs
      else '{' :: (acc ++ '}' :: subDollarSM .normal cs)
    else if isIdentChar c then subDollarSM (.inBrace (acc ++ [c])) cs
    else if c = '$' then '$' :: '{' :: (acc ++ subDollarSM .sawDollar cs)
    else '$' :: '{' :: (acc ++ c :: subDollarSM .normal cs)

/-- The `re.sub` call of `util.create_arguments` on the whole input. -/
def subDollar (s : List Char) : List Char := subDollarSM .normal s

/-- One token of a Python format string: a literal character or a
replacement field `\x7bname\x7d`. -/
inductive FormatTok where
  | lit (c : Char)
  | field (name : String)
deriving DecidableEq, Repr

/-- State of the Python `str.format` scanner: outside braces, just after
`\x7b`, or inside a field having read `acc`. -/
inductive FmtState where
  | normal
  | afterL
  | inField (acc : List Char)
deriving DecidableEq, Repr

/-- Scanner of Python `str.format` templates as used by
`util.create_arguments` (line 99, `value.format(**options)`): `\x7b\x7b`
and `\x7d\x7d` are literal braces, `\x7bname\x7d` is a replacement field,
a lone `\x7d` or an unterminated `\x7b` is a `ValueError`, and an empty
field (auto-numbering with no positional arguments) is an `IndexError`.
Conversion/format-spec suffixes are not separated out: the call sites
only ever use plain named fields. -/
def fmtTokenize : FmtState → List Char → Except PyErr (List FormatTok)
  | .normal, [] => .ok []
  | .afterL, [] => .error (.valueError "Single \x7b encountered in format string")
  | .inField _, [] => .error (.valueError "expected \x7d before end of string")
  | .normal, c :: cs =>
    if c = '{' then fmtTokenize .afterL cs
    else if c = '}' then
      match cs with
      | '}' :: cs2 => (fmtTokenize .normal cs2).map (FormatTok.lit '}' :: ·)
      | _ => .error (.valueError "Single \x7d encountered in format string")
    else (fmtTokenize .normal cs).map (FormatTok.lit c :: ·)
  | .afterL, c :: cs =>
    if c = '{' then (fmtTokenize .normal cs).map (FormatTok.lit '{' :: ·)
    else if c = '}' then .error (.indexError "Replacement index 0 out of range")
    else fmtTokenize (.inField [c]) cs
  | .inField acc, c :: cs =>
    if c = '}' then (fmtTokenize .normal cs).map (FormatTok.field (String.mk acc) :: ·)
    else if c = '{' then .error (.valueError "unexpected \x7b in field name")
    else fmtTokenize (.inField (acc ++ [c])) cs

/-- Substitution of the tokens against the keyword-argument map: a field
whose name is not a key of `opts` is a Python `KeyError`. -/
def fmtSubstitute (opts : List (String × String)) :
    List FormatTok → Except PyErr (List Char)
  | [] => .ok []
  | FormatTok.lit c :: rest => (fmtSubstitute opts rest).map (c :: ·)
  | FormatTok.field name :: rest =>
    match opts.lookup name with
    | none => .error (.keyError name)
    | some v => (fmtSubstitute opts rest).map (v.data ++ ·)

/-- Python `value.format(**options)` on an already-`re.sub`-rewritten
template. -/
def pyFormat (t : List Char) (opts : List (String × String)) :
    Except PyErr String := do
  let toks ← fmtTokenize .normal t
  let out ← fmtSubstitute opts toks
  pure (String.mk out)

/-- The `isinstance(data, str)` branch of `util.create_arguments`
(src/argon/util.py lines 96-101): rewrite `$\x7bname\x7d` placeholders to
plain `\x7bname\x7d` fields, fill them from `options`, and return the
one-element list. -/
def create_arguments_str (data : String) (opts : List (String × String)) :
    Except PyErr (List String) := do
  let value ← pyFormat (subDollar data.data) opts
  pure [value]

/-- `shared.SHA1_BUFFER_SIZE` (src/argon/shared.py line 9): 64 KiB. -/
def SHA1_BUFFER_SIZE : Nat := 64 * 1024

/-- The local file system as an association list from path to byte
contents; a path that is absent has no file. -/
abbrev FileStore := List (String × List Nat)

/-- The `while True` read loop of `util.sha1_check_file` (src/argon/util.py
lines 123-130): bytes absorbed by the incremental `hashlib.sha1` state
after repeatedly reading `SHA1_BUFFER_SIZE`-byte blocks until the read
comes back empty. The hashlib state is modelled by the byte sequence it
has absorbed. -/
def sha1AbsorbLoop (absorbed remaining : List Nat) : List Nat :=
  if remaining = [] then absorbed
  else
    sha1AbsorbLoop (absorbed ++ remaining.take SHA1_BUFFER_SIZE)
      (remaining.drop SHA1_BUFFER_SIZE)
termination_by remaining.length
decreasing_by
  simp only [List.length_drop]
  have hpos : 0 < remaining.length := List.length_pos.mpr (by assumption)
  have : 0 < SHA1_BUFFER_SIZE := by decide
  omega

/-- `util.sha1_check_file` (src/argon/util.py lines 120-132), parametric in
the SHA-1 digest function `sha1` (an external `hashlib` primitive):
opening a missing file raises `FileNotFoundError`; otherwise the hex
digest of the absorbed bytes is compared against the expected hash. -/
def sha1_check_file (sha1 : List Nat → String) (fs : FileStore)
    (file_name sha1_hash : String) : Except PyErr Bool :=
  match fs.lookup file_name with
  | none => .error (.fileNotFound file_name)
  | some contents => .ok (sha1 (sha1AbsorbLoop [] contents) == sha1_hash)

/-- `util.is_valid_file` (src/argon/util.py lines 135-136):
`os.path.isfile(file) and sha1_check_file(file, sha1)` — the short-circuit
`and` never opens a missing file. -/
def is_valid_file (sha1 : List Nat → String) (fs : FileStore)
    (file sha1v : String) : Except PyErr Bool :=
  if (fs.lookup file).isSome then sha1_check_file sha1 fs file sha1v
  else .ok false

/-- Write `contents` at `path`, replacing an existing entry in place. -/
def FileStore.set : FileStore → String → List Nat → FileStore
  | [], path, contents => [(path, contents)]
  | (p, c) :: rest, path, contents =>
    if p = path then (path, contents) :: rest
    else (p, c) :: FileStore.set rest path contents

/-- Path `versions/<name>/<name>.jar` under the install root, as built in
`Argon.play` (src/argon/argon.py lines 282-290). -/
def versionJarPath (root name : String) : String :=
  pathJoin [root, "versions", name, name ++ ".jar"]

/-- The leaf-jar content patch of `Argon.play` (src/argon/argon.py lines
282-292), run when the release inherits: `os.path.getsize` on the leaf's
own jar (raising if it does not exist), and if the size is zero,
`shutil.copy` of the immediate parent's jar over it (raising if the
parent's jar does not exist). Returns the new store and whether a copy
was performed. -/
def patchLeafJar (fs : FileStore) (root leafName parentName : String) :
    Except PyErr (FileStore × Bool) :=
  let original := versionJarPath root leafName
  match fs.lookup original with
  | none => .error (.fileNotFound original)
  | some contents =>
    if contents.length = 0 then
      let inherited := versionJarPath root parentName
      match fs.lookup inherited with
      | none => .error (.fileNotFound inherited)
      | some parentBytes => .ok (FileStore.set fs original parentBytes, true)
    else .ok (fs, false)

/-- Store in which both the leaf jar and the parent jar are empty files. -/
def emptyJarsStore : FileStore :=
  [(versionJarPath "root" "L", []), (versionJarPath "root" "P", [])]

/-- Store with an empty leaf jar and a non-empty parent jar. -/
def nonEmptyParentStore : FileStore :=
  [(versionJarPath "root" "L", []), (versionJarPath "root" "P", [7])]

/-- Release definitions as needed by the inheritance walk: each name maps
to its library list and its optional `inheritsFrom` target (present in
the remote manifest). -/
abbrev InheritEnv := List (String × (List String × Option String))

/-- `Version.fetch_libraries` (src/argon/version.py lines 124-133) composed
with `Version.fetch_inherited` (lines 82-103), with explicit fuel. The
Python recursion `libraries + await inherits.fetch_libraries()` has no
cycle guard — the memo check `self._inherits is bool` (line 83) compares
the slot with the type object and is always false, and each
`fetch_inherited` re-resolves the parent into a fresh `Version` — so on a
cyclic graph it recurses forever; `none` at fuel `n` means the recursion
has not returned within depth `n`. A parent named by `inheritsFrom` but
absent from the manifest leaves `_inherits` at its initial `None`, and the
walk stops there. -/
def fetchLibrariesFuel (env : InheritEnv) :
    Nat → String → Option (List String)
  | 0, _ => none
  | n+1, name =>
    match env.lookup name with
    | none => none
    | some (libs, none) => some libs
    | some (libs, some parent) =>
      match env.lookup parent with
      | none => some libs
      | some _ => (fetchLibrariesFuel env n parent).map (libs ++ ·)

/-- Two releases inheriting from each other. -/
def cyclicEnv : InheritEnv :=
  [("A", (["libA"], some "B")), ("B", (["libB"], some "A"))]

/-- Memoization slot `Version._inherits`: initialized to Python `None`
(in `__init__`), set to `False` when there is no `inheritsFrom`, or to
the `Version` found in the manifest. -/
inductive InheritsSlot where
  | pyNone
  | pyFalse
  | found (name : String)
deriving DecidableEq, Repr

/-- The guard `self._inherits is bool` (src/argon/version.py line 83):
identity comparison of the slot's value with the type object `bool`; the
slot only ever holds `None`, `False` or a `Version` object, none of which
is that type object, so the guard is false on every value. -/
def inheritsSlotIsTypeBool : InheritsSlot → Bool
  | _ => false

/-- The in-memory state of one `Version` object as touched by
`fetch_inherited`: whether `_data` is loaded, the `inheritsFrom` name its
definition carries, and the `_inherits` slot. -/
structure VersionState where
  hasData : Bool
  inheritsFrom : Option String
  inherits : InheritsSlot
deriving DecidableEq, Repr

/-- `Version.fetch_inherited` (src/argon/version.py lines 82-103) as a
state transition that also reports `(definition requests, manifest
requests)` performed by the call: the dead memo branch, then
`fetch_data` (one remote request unless `_has_data`, lines 105-114),
then — whenever `inheritsFrom` is present — an unconditional
`util.list_all_versions()` fetch of the remote manifest (that function
has no cache, src/argon/util.py lines 14-22) and a scan assigning
`_inherits` to the matching entry. -/
def fetch_inherited (manifest : List String) (v : VersionState) :
    VersionState × Nat × Nat :=
  if inheritsSlotIsTypeBool v.inherits then (v, 0, 0)
  else
    let dataReqs := if v.hasData then 0 else 1
    let v1 : VersionState := { v with hasData := true }
    match v1.inheritsFrom with
    | none => ({ v1 with inherits := .pyFalse }, dataReqs, 0)
    | some parent =>
      let slot := if manifest.contains parent then InheritsSlot.found parent
                  else v1.inherits
      ({ v1 with inherits := slot }, dataReqs, 1)

/-- Version "A", its definition already loaded locally, declaring
`inheritsFrom: "B"`. -/
def versionA : VersionState := ⟨true, some "B", .pyNone⟩

/-- Content-addressed object path `assets/objects/<hh>/<hash>` used by
`Version.download_assets` (src/argon/version.py lines 184-188). -/
def assetObjectPath (game h : String) : String :=
  pathJoin [game, "assets", "objects", String.mk (h.data.take 2), h]

/-- Object download URL (src/argon/version.py line 198). -/
def assetObjectUrl (h : String) : String :=
  "https://resources.download.minecraft.net/"
    ++ String.mk (h.data.take 2) ++ "/" ++ h

/-- The per-object tasks of `Version.download_assets` (lines 183-208):
each object is requested exactly when `util.is_valid_file` rejects its
content-addressed file. The chunks-of-16 `asyncio.gather` batching (lines
205-208) affects completion timing only, not which requests are issued. -/
def assetObjectsLoop (sha1 : List Nat → String) (fs : FileStore)
    (game : String) : List String → Except PyErr (List String)
  | [] => .ok []
  | h :: rest => do
    let valid ← is_valid_file sha1 fs (assetObjectPath game h) h
    let tail ← assetObjectsLoop sha1 fs game rest
    pure (if valid then tail else assetObjectUrl h :: tail)

/-- `Version.download_assets` (src/argon/version.py lines 158-208) as the
list of network requests it performs against a local store: the asset
index JSON is requested unconditionally (line 172), before any validity
check, then the per-object requests follow. -/
def download_assets_requests (sha1 : List Nat → String) (fs : FileStore)
    (game indexUrl : String) (objects : List String) :
    Except PyErr (List String) := do
  let objReqs ← assetObjectsLoop sha1 fs game objects
  pure (indexUrl :: objReqs)

/-- One downloadable artifact entry `{path, sha1, url}`. -/
structure Artifact where
  path : String
  sha1 : String
  url : String
deriving DecidableEq, Repr

/-- The `downloads` dict of a library: optional `artifact`, optional
`classifiers` map. -/
structure DownloadsDict where
  artifact : Option Artifact
  classifiers : Option (List (String × Artifact))
deriving DecidableEq, Repr

/-- A library as consumed by `Version.download_libraries`: coordinate,
optional legacy repository `url`, optional `downloads` dict, and whether
a `"natives"` key is present. -/
structure DLibrary where
  name : String
  url : Option String
  downloads : Option DownloadsDict
  hasNatives : Bool
deriving DecidableEq, Repr

/-- Split a character list at the first occurrence of `sep` (Python
`split(sep, 1)` when unpacked into two names; `none` when the separator
is absent, which would be an unpacking `ValueError`). -/
def breakAtChar (sep : Char) : List Char → Option (List Char × List Char)
  | [] => none
  | c :: cs =>
    if c = sep then some ([], cs)
    else (breakAtChar sep cs).map (fun q => (c :: q.1, q.2))

/-- Python `s.replace(old, new, 1)` for one-character arguments. -/
def replaceFirstChar (old new : Char) : List Char → List Char
  | [] => []
  | c :: cs => if c = old then new :: cs else c :: replaceFirstChar old new cs

/-- URL of a legacy repository-form library
(src/argon/version.py lines 220-229): `library["url"]` concatenated with
the "/"-joined path pieces (`urllib.parse.quote` is the identity on the
plain coordinate characters used here). -/
def repoLibraryUrl (base name : String) : Except PyErr String :=
  match breakAtChar ':' name.data with
  | none => .error (.valueError "not enough values to unpack")
  | some (fullPath, fullName) =>
    .ok (base ++ pathJoin ((pySplitAux '.' fullPath []).map String.mk
      ++ (pySplitAux ':' fullName []).map String.mk
      ++ [String.mk (replaceFirstChar ':' '-' fullName) ++ ".jar"]))

/-- The per-library body of `Version.download_libraries`
(src/argon/version.py lines 217-283) as the list of network requests it
performs: a repository-form library (a `url` key) is always requested;
a `downloads`-form library requests its `artifact` exactly when
`util.is_valid_file` rejects it, and, when a `"natives"` key is present,
likewise requests the classifier found under `natives-<os>` or
`natives-<os>-<arch>` (skipping the library when neither key exists;
a missing `classifiers` dict is a `KeyError`). -/
def download_library_requests (sha1 : List Nat → String) (fs : FileStore)
    (p : Platform) (game : String) (l : DLibrary) :
    Except PyErr (List String) :=
  match l.url with
  | some base => (repoLibraryUrl base l.name).map ([·])
  | none =>
    match l.downloads with
    | none => .ok []
    | some dd => do
      let artReqs ←
        match dd.artifact with
        | none => pure []
        | some a => do
          let valid ← is_valid_file sha1 fs
            (pathJoin [game, "libraries", a.path]) a.sha1
          pure (if valid then [] else [a.url])
      let natReqs ←
        if l.hasNatives then
          match dd.classifiers with
          | none => .error (.keyError "classifiers")
          | some cls =>
            match cls.lookup ("natives-" ++ p.target) with
            | some nat => do
              let valid ← is_valid_file sha1 fs
                (pathJoin [game, "libraries", nat.path]) nat.sha1
              pure (if valid then [] else [nat.url])
            | none =>
              match cls.lookup ("natives-" ++ p.target ++ "-" ++ p.arch) with
              | none => pure ([] : List String)
              | some nat => do
                let valid ← is_valid_file sha1 fs
                  (pathJoin [game, "libraries", nat.path]) nat.sha1
                pure (if valid then [] else [nat.url])
        else pure []
      pure (artReqs ++ natReqs)

/-- The `for library in await self.fetch_libraries()` loop of
`Version.download_libraries` (src/argon/version.py line 217). -/
def download_libraries_requests (sha1 : List Nat → String) (fs : FileStore)
    (p : Platform) (game : String) : List DLibrary → Except PyErr (List String)
  | [] => .ok []
  | l :: rest => do
    let rs ← download_library_requests sha1 fs p game l
    let tail ← download_libraries_requests sha1 fs p game rest
    pure (rs ++ tail)

/-- A digest function for concrete scenarios: every content hashes to
"aa". Instantiating the external `hashlib.sha1` parameter this way builds
a store in which every file's recorded hash matches. -/
def constSha : List Nat → String := fun _ => "aa"

/-- Store holding the single asset object of the concrete scenario. -/
def validAssetStore : FileStore := [(assetObjectPath "g" "aa", [1])]

/-- A downloads-form library with one artifact and no natives. -/
def simpleLib : DLibrary :=
  ⟨"g:a:1", none, some ⟨some ⟨"g/a/1/a-1.jar", "aa", "http://art"⟩, none⟩,
   false⟩

/-- Store holding the asset object and the artifact of `simpleLib`. -/
def validLibStore : FileStore :=
  [(assetObjectPath "g" "aa", [1]),
   (pathJoin ["g", "libraries", "g/a/1/a-1.jar"], [2])]

end Argon

namespace Argon

/-- C1: negated-default tie-break. A rule whose os condition is a single
name that differs from the current platform contributes the negation of
that (final) rule's own action, not a fixed default; concretely, for every
architecture, the osx-deny library is included on windows and linux and
excluded on osx, and the linux-allow library is excluded on windows and
osx. -/
theorem rule_negated_default_tiebreak (p : Platform) (osName act : String)
    (hne : osName ≠ p.target) :
    should_use_rule p ⟨false, act, some [("name", osName)]⟩
      = !(act = "allow" : Bool) ∧
    ∀ arch : String,
      should_use_library ⟨"windows", arch⟩ osxDenyLib = true ∧
      should_use_library ⟨"linux", arch⟩ osxDenyLib = true ∧
      should_use_library ⟨"osx", arch⟩ osxDenyLib = false ∧
      should_use_library ⟨"windows", arch⟩ linuxAllowLib = false ∧
      should_use_library ⟨"osx", arch⟩ linuxAllowLib = false := by
  refine ⟨?_, fun arch => ⟨rfl, rfl, rfl, rfl, rfl⟩⟩
  simp [should_use_rule, osItemsLoop, hne]

/-- Witness for C1 at a concrete platform and rule: on 64-bit windows, a
deny rule conditioned on os name "osx" evaluates to true (the negation of
deny), and the concrete libraries behave as claimed. -/
theorem rule_negated_default_tiebreak_witness :
    ("osx" ≠ (Platform.mk "windows" "64").target) ∧
    (should_use_rule ⟨"windows", "64"⟩ ⟨false, "deny", some [("name", "osx")]⟩
        = !("deny" = "allow" : Bool) ∧
     ∀ arch : String,
      should_use_library ⟨"windows", arch⟩ osxDenyLib = true ∧
      should_use_library ⟨"linux", arch⟩ osxDenyLib = true ∧
      should_use_library ⟨"osx", arch⟩ osxDenyLib = false ∧
      should_use_library ⟨"windows", arch⟩ linuxAllowLib = false ∧
      should_use_library ⟨"osx", arch⟩ linuxAllowLib = false) :=
  ⟨by decide, rule_negated_default_tiebreak ⟨"windows", "64"⟩ "osx" "deny"
    (by decide)⟩

/-- C3 counterexample: a library whose `"rules"` key is present but empty is
NOT included — `any` over an empty list is false — already on 64-bit
windows, refuting "an empty rule list evaluates to allow". -/
theorem empty_rules_list_excludes :
    should_use_library ⟨"windows", "64"⟩ emptyRulesLib = false := rfl

/-- C3 amended: a library with no `"rules"` key is included on every
platform, but a library whose rules list is present and empty is excluded
on every platform. -/
theorem absent_rules_allow_empty_rules_deny (p : Platform) :
    should_use_library p noRulesLib = true ∧
    should_use_library p emptyRulesLib = false :=
  ⟨rfl, rfl⟩

/-- Helper: the classpath loop equals filtering by the rule evaluator and
mapping each survivor to its jar path, in declaration order. -/
theorem classPathLoop_eq_filter_mapM (p : Platform) (mc : String)
    (libs : List Library) :
    classPathLoop p mc libs
      = (libs.filter fun l => should_use_library p l.ruled).mapM
          (libraryJarPath p mc) := by
  induction libs with
  | nil => rfl
  | cons l rest ih =>
    by_cases h : should_use_library p l.ruled
    · rw [show List.filter (fun l => should_use_library p l.ruled) (l :: rest)
            = l :: List.filter (fun l => should_use_library p l.ruled) rest from
            by simp [List.filter_cons, h],
          List.mapM_cons, ← ih]
      simp [classPathLoop, h]
    · rw [show List.filter (fun l => should_use_library p l.ruled) (l :: rest)
            = List.filter (fun l => should_use_library p l.ruled) rest from
            by simp [List.filter_cons, h],
          ← ih]
      simp [classPathLoop, h]

/-- C5: for a two-link chain (leaf inherits base), the classpath built by
`Argon.play` is exactly the leaf's rule-filtered library jar paths in
declaration order, then the leaf's own `versions/<id>/<id>.jar`, then the
base's rule-filtered library jar paths in declaration order, then the
base's own jar — in that order. -/
theorem two_link_classpath_order (p : Platform) (mc : String)
    (leaf base : VersionData) (ls bs : List String)
    (hl : (leaf.libraries.filter fun l => should_use_library p l.ruled).mapM
            (libraryJarPath p mc) = .ok ls)
    (hb : (base.libraries.filter fun l => should_use_library p l.ruled).mapM
            (libraryJarPath p mc) = .ok bs) :
    playClassPath p leaf base mc
      = .ok (ls ++ [ownJarPath mc leaf] ++ bs ++ [ownJarPath mc base]) := by
  unfold playClassPath get_class_path
  rw [classPathLoop_eq_filter_mapM, classPathLoop_eq_filter_mapM, hl, hb]
  show Except.ok ((ls ++ [ownJarPath mc leaf]) ++ (bs ++ [ownJarPath mc base]))
      = Except.ok (ls ++ [ownJarPath mc leaf] ++ bs ++ [ownJarPath mc base])
  simp [List.append_assoc]

/-- Witness for C5: a concrete leaf with one unruled library and a concrete
base with one allow-ruled library assemble in the claimed order. -/
theorem two_link_classpath_order_witness :
    ((VersionData.mk "L" [⟨"com.example:alpha:1.0", none, none⟩]).libraries.filter
        (fun l => should_use_library ⟨"windows", "64"⟩ l.ruled)).mapM
      (libraryJarPath ⟨"windows", "64"⟩ "mc")
      = .ok ["mc/libraries/com/example/alpha/1.0/alpha-1.0.jar"] ∧
    ((VersionData.mk "B" [⟨"org.lwjgl:lwjgl:2.9.4", some [⟨false, "allow", none⟩], none⟩]).libraries.filter
        (fun l => should_use_library ⟨"windows", "64"⟩ l.ruled)).mapM
      (libraryJarPath ⟨"windows", "64"⟩ "mc")
      = .ok ["mc/libraries/org/lwjgl/lwjgl/2.9.4/lwjgl-2.9.4.jar"] ∧
    playClassPath ⟨"windows", "64"⟩
        (VersionData.mk "L" [⟨"com.example:alpha:1.0", none, none⟩])
        (VersionData.mk "B" [⟨"org.lwjgl:lwjgl:2.9.4", some [⟨false, "allow", none⟩], none⟩]) "mc"
      = .ok (["mc/libraries/com/example/alpha/1.0/alpha-1.0.jar"]
          ++ [ownJarPath "mc" (VersionData.mk "L" [⟨"com.example:alpha:1.0", none, none⟩])]
          ++ ["mc/libraries/org/lwjgl/lwjgl/2.9.4/lwjgl-2.9.4.jar"]
          ++ [ownJarPath "mc" (VersionData.mk "B" [⟨"org.lwjgl:lwjgl:2.9.4", some [⟨false, "allow", none⟩], none⟩])]) :=
  ⟨by rfl, by rfl,
   two_link_classpath_order ⟨"windows", "64"⟩ "mc"
     (VersionData.mk "L" [⟨"com.example:alpha:1.0", none, none⟩])
     (VersionData.mk "B" [⟨"org.lwjgl:lwjgl:2.9.4", some [⟨false, "allow", none⟩], none⟩])
     ["mc/libraries/com/example/alpha/1.0/alpha-1.0.jar"]
     ["mc/libraries/org/lwjgl/lwjgl/2.9.4/lwjgl-2.9.4.jar"]
     (by rfl) (by rfl)⟩

/-- Helper: bind on a successful `Except` applies the continuation. -/
@[simp] theorem except_ok_bind {ε α β : Type} (x : α) (f : α → Except ε β) :
    (Except.ok x : Except ε α) >>= f = f x := rfl

/-- Helper: bind on a failed `Except` propagates the error. -/
@[simp] theorem except_error_bind {ε α β : Type} (e : ε) (f : α → Except ε β) :
    (Except.error e : Except ε α) >>= f = .error e := rfl

/-- Helper: `pure` into `Except` is `Except.ok`. -/
@[simp] theorem except_pure_eq {ε α : Type} (x : α) :
    (pure x : Except ε α) = .ok x := rfl

/-- Helper: `Except.map` on a success. -/
@[simp] theorem except_map_ok {ε α β : Type} (f : α → β) (x : α) :
    (Except.ok x : Except ε α).map f = .ok (f x) := rfl

/-- Helper: `Except.map` on a failure. -/
@[simp] theorem except_map_error {ε α β : Type} (f : α → β) (e : ε) :
    (Except.error e : Except ε α).map f = .error e := rfl

/-- Helper: substituting a token list that contains a field whose name is
missing from the options fails. -/
theorem fmtSubstitute_missing_key (opts : List (String × String))
    (name : String) (toks : List FormatTok)
    (hmem : FormatTok.field name ∈ toks)
    (habs : opts.lookup name = none) :
    ∃ e, fmtSubstitute opts toks = .error e := by
  induction toks with
  | nil => cases hmem
  | cons t rest ih =>
    cases t with
    | lit c =>
      have hm : FormatTok.field name ∈ rest := by
        rcases List.mem_cons.mp hmem with h | h
        · exact absurd h (by simp)
        · exact h
      obtain ⟨e, he⟩ := ih hm
      exact ⟨e, by simp [fmtSubstitute, he]⟩
    | field n =>
      by_cases hn : n = name
      · subst hn
        exact ⟨.keyError n, by simp [fmtSubstitute, habs]⟩
      · cases hl : opts.lookup n with
        | none => exact ⟨.keyError n, by simp [fmtSubstitute, hl]⟩
        | some v =>
          have hm : FormatTok.field name ∈ rest := by
            rcases List.mem_cons.mp hmem with h | h
            · exact absurd (by injection h with h2; exact h2.symm) hn
            · exact h
          obtain ⟨e, he⟩ := ih hm
          exact ⟨e, by simp [fmtSubstitute, hl, he]⟩

/-- C6: expanding the literal `$\x7bauth_player_name\x7d` with the option
present yields exactly `["Steve"]`; with the option absent it fails with
the missing-key hard error (the Python `KeyError` raised by
`str.format`); and in general any literal whose rewritten template
contains a field missing from the options is a hard error, never silent
emission of the placeholder text. -/
theorem template_expansion_missing_option (s : String)
    (opts : List (String × String)) (toks : List FormatTok) (name : String)
    (htoks : fmtTokenize .normal (subDollar s.data) = .ok toks)
    (hmem : FormatTok.field name ∈ toks)
    (habs : opts.lookup name = none) :
    create_arguments_str "${auth_player_name}" [("auth_player_name", "Steve")]
      = .ok ["Steve"] ∧
    create_arguments_str "${auth_player_name}" []
      = .error (.keyError "auth_player_name") ∧
    ∃ e, create_arguments_str s opts = .error e := by
  refine ⟨rfl, rfl, ?_⟩
  obtain ⟨e, he⟩ := fmtSubstitute_missing_key opts name toks hmem habs
  refine ⟨e, ?_⟩
  unfold create_arguments_str pyFormat
  rw [htoks]
  simp [he]

/-- Witness for C6 at the concrete template and empty option map. -/
theorem template_expansion_missing_option_witness :
    (fmtTokenize .normal (subDollar ("${auth_player_name}" : String).data)
        = .ok [FormatTok.field "auth_player_name"]) ∧
    (FormatTok.field "auth_player_name" ∈ [FormatTok.field "auth_player_name"]) ∧
    (([] : List (String × String)).lookup "auth_player_name" = none) ∧
    (create_arguments_str "${auth_player_name}" [("auth_player_name", "Steve")]
        = .ok ["Steve"] ∧
     create_arguments_str "${auth_player_name}" []
        = .error (.keyError "auth_player_name") ∧
     ∃ e, create_arguments_str "${auth_player_name}" [] = .error e) :=
  ⟨rfl, List.mem_singleton.mpr rfl, rfl,
   template_expansion_missing_option "${auth_player_name}" []
     [FormatTok.field "auth_player_name"] "auth_player_name" rfl
     (List.mem_singleton.mpr rfl) rfl⟩

/-- C7 counterexample: a library whose natives map has only a linux entry
makes `get_natives_string` raise `KeyError` on 64-bit windows instead of
yielding "no native artifact". -/
theorem natives_missing_os_raises :
    get_natives_string ⟨"windows", "64"⟩ linuxNativesLib
      = .error (.keyError "windows") := rfl

/-- C7 amended: with a recognized architecture, a natives entry matching
the current OS name has its arch token substituted; a natives map without
an entry for the current OS name raises `KeyError` (it does not silently
yield no artifact). -/
theorem natives_lookup_amended (p : Platform) (l : Library)
    (natives : List (String × String)) (s : String)
    (harch : p.arch = "64" ∨ p.arch = "32") (hn : l.natives = some natives) :
    (natives.lookup p.target = some s →
      get_natives_string p l = .ok (some (s.replace "${arch}" p.arch))) ∧
    (natives.lookup p.target = none →
      get_natives_string p l = .error (.keyError p.target)) := by
  constructor <;> intro h <;> simp [get_natives_string, hn, h, harch]

/-- Witness for C7's amended theorem on 64-bit windows with a windows
natives entry carrying the arch token. -/
theorem natives_lookup_amended_witness :
    (((⟨"windows", "64"⟩ : Platform).arch = "64" ∨
      (⟨"windows", "64"⟩ : Platform).arch = "32") ∧
     winNativesLib.natives = some [("windows", "natives-windows-${arch}")]) ∧
    (([("windows", "natives-windows-${arch}")].lookup
        (⟨"windows", "64"⟩ : Platform).target = some "natives-windows-${arch}" →
      get_natives_string ⟨"windows", "64"⟩ winNativesLib
        = .ok (some (("natives-windows-${arch}").replace "${arch}"
            (⟨"windows", "64"⟩ : Platform).arch))) ∧
     ([("windows", "natives-windows-${arch}")].lookup
        (⟨"windows", "64"⟩ : Platform).target = none →
      get_natives_string ⟨"windows", "64"⟩ winNativesLib
        = .error (.keyError (⟨"windows", "64"⟩ : Platform).target))) :=
  ⟨⟨Or.inl rfl, rfl⟩,
   natives_lookup_amended ⟨"windows", "64"⟩ winNativesLib
     [("windows", "natives-windows-${arch}")] "natives-windows-${arch}"
     (Or.inl rfl) rfl⟩

/-- Helper: the block-wise read loop absorbs exactly the remaining bytes. -/
theorem sha1AbsorbLoop_eq_append (n : Nat) :
    ∀ remaining : List Nat, remaining.length ≤ n →
      ∀ absorbed, sha1AbsorbLoop absorbed remaining = absorbed ++ remaining := by
  induction n with
  | zero =>
    intro remaining h absorbed
    have hr : remaining = [] := List.eq_nil_of_length_eq_zero (Nat.le_zero.mp h)
    subst hr
    unfold sha1AbsorbLoop
    simp
  | succ n ih =>
    intro remaining h absorbed
    unfold sha1AbsorbLoop
    by_cases hr : remaining = []
    · simp [hr]
    · have hpos : 0 < remaining.length := List.length_pos.mpr hr
      have hlen : (remaining.drop SHA1_BUFFER_SIZE).length ≤ n := by
        simp only [List.length_drop]
        have : 0 < SHA1_BUFFER_SIZE := by decide
        omega
      rw [if_neg hr, ih _ hlen]
      simp [List.append_assoc]

/-- C10: the file-validity predicate never raises, and returns true exactly
when a file exists at the path and the SHA-1 digest of its entire contents
(absorbed through the 64 KiB block loop) equals the given hash; in
particular a missing file yields `false`, not an error. -/
theorem is_valid_file_spec (sha1 : List Nat → String) (fs : FileStore)
    (path h : String) :
    ∃ b : Bool, is_valid_file sha1 fs path h = .ok b ∧
      (b = true ↔ ∃ c, fs.lookup path = some c ∧ sha1 c = h) := by
  cases hl : fs.lookup path with
  | none =>
    refine ⟨false, ?_, ?_⟩
    · simp [is_valid_file, hl]
    · simp [hl]
  | some c =>
    refine ⟨sha1 (sha1AbsorbLoop [] c) == h, ?_, ?_⟩
    · simp [is_valid_file, sha1_check_file, hl]
    · rw [sha1AbsorbLoop_eq_append c.length c (Nat.le_refl _) []]
      simp [hl, beq_iff_eq]

/-- Helper: looking up a key just written into the store finds the new
contents. -/
theorem FileStore.lookup_set_self (fs : FileStore) (k : String)
    (v : List Nat) : (FileStore.set fs k v).lookup k = some v := by
  induction fs with
  | nil => simp [FileStore.set, List.lookup]
  | cons e rest ih =>
    obtain ⟨p, c⟩ := e
    by_cases h : p = k
    · simp [FileStore.set, h, List.lookup]
    · have hbe : (k == p) = false :=
        beq_eq_false_iff_ne.mpr (fun hh => h hh.symm)
      simp [FileStore.set, h, List.lookup, hbe, ih]

/-- C8 counterexample: with the leaf jar empty and the parent jar also
empty, the patch step copies, leaves the state unchanged, and a second
assembly call on the same state performs another copy — so the copy is not
performed at most once. -/
theorem patch_repeats_on_empty_parent :
    patchLeafJar emptyJarsStore "root" "L" "P" = .ok (emptyJarsStore, true) ∧
    (patchLeafJar emptyJarsStore "root" "L" "P").bind
        (fun r => patchLeafJar r.1 "root" "L" "P")
      = .ok (emptyJarsStore, true) := ⟨rfl, rfl⟩

/-- C8 amended: when the leaf release's own jar exists with size zero and
the immediate parent's jar is non-empty, the patch copies the parent's
bytes over the leaf jar (byte-identical), and a second assembly call on
the resulting state performs no additional copy. -/
theorem patch_once_when_parent_nonempty (fs : FileStore)
    (root leafName parentName : String) (c : List Nat)
    (hleaf : fs.lookup (versionJarPath root leafName) = some [])
    (hparent : fs.lookup (versionJarPath root parentName) = some c)
    (hne : c ≠ []) :
    patchLeafJar fs root leafName parentName
      = .ok (FileStore.set fs (versionJarPath root leafName) c, true) ∧
    (FileStore.set fs (versionJarPath root leafName) c).lookup
        (versionJarPath root leafName) = some c ∧
    patchLeafJar (FileStore.set fs (versionJarPath root leafName) c)
        root leafName parentName
      = .ok (FileStore.set fs (versionJarPath root leafName) c, false) := by
  have hset := FileStore.lookup_set_self fs (versionJarPath root leafName) c
  refine ⟨?_, hset, ?_⟩
  · simp [patchLeafJar, hleaf, hparent]
  · simp [patchLeafJar, hset, List.length_eq_zero, hne]

/-- Witness for C8's amended theorem on a concrete store with an empty
leaf jar and a one-byte parent jar. -/
theorem patch_once_when_parent_nonempty_witness :
    (nonEmptyParentStore.lookup (versionJarPath "root" "L") = some [] ∧
     nonEmptyParentStore.lookup (versionJarPath "root" "P") = some [7] ∧
     ([7] : List Nat) ≠ []) ∧
    (patchLeafJar nonEmptyParentStore "root" "L" "P"
        = .ok (FileStore.set nonEmptyParentStore
            (versionJarPath "root" "L") [7], true) ∧
     (FileStore.set nonEmptyParentStore
        (versionJarPath "root" "L") [7]).lookup (versionJarPath "root" "L")
        = some [7] ∧
     patchLeafJar (FileStore.set nonEmptyParentStore
          (versionJarPath "root" "L") [7]) "root" "L" "P"
        = .ok (FileStore.set nonEmptyParentStore
            (versionJarPath "root" "L") [7], false)) :=
  ⟨⟨rfl, rfl, by decide⟩,
   patch_once_when_parent_nonempty nonEmptyParentStore "root" "L" "P" [7]
     rfl rfl (by decide)⟩

/-- C2: on the cyclic inheritance graph A inheritsFrom B inheritsFrom A,
the library-chain recursion never returns for any recursion depth — the
code has no cycle guard and no CyclicInheritance error, so resolution
diverges instead of failing with that error. -/
theorem cyclic_inheritance_diverges (n : Nat) :
    fetchLibrariesFuel cyclicEnv n "A" = none ∧
    fetchLibrariesFuel cyclicEnv n "B" = none := by
  induction n with
  | zero => exact ⟨rfl, rfl⟩
  | succ n ih =>
    have hA : fetchLibrariesFuel cyclicEnv (n + 1) "A"
        = (fetchLibrariesFuel cyclicEnv n "B").map (["libA"] ++ ·) := rfl
    have hB : fetchLibrariesFuel cyclicEnv (n + 1) "B"
        = (fetchLibrariesFuel cyclicEnv n "A").map (["libB"] ++ ·) := rfl
    rw [hA, hB, ih.1, ih.2]
    exact ⟨rfl, rfl⟩

/-- C9: the `self._inherits is bool` memo guard of `fetch_inherited` is
false on every slot value, so a version with `inheritsFrom` set performs
one remote manifest fetch on every call — two consecutive calls on the
same object perform two manifest fetches, not at most one per process. -/
theorem manifest_refetched_every_call :
    (∀ slot, inheritsSlotIsTypeBool slot = false) ∧
    (fetch_inherited ["A", "B"] versionA).2.2 = 1 ∧
    (fetch_inherited ["A", "B"]
        (fetch_inherited ["A", "B"] versionA).1).2.2 = 1 :=
  ⟨fun _ => rfl, rfl, rfl⟩

/-- Helper: evaluation form of `is_valid_file` with the block loop
collapsed to the whole contents. -/
theorem is_valid_file_eq (sha1 : List Nat → String) (fs : FileStore)
    (path h : String) :
    is_valid_file sha1 fs path h
      = match fs.lookup path with
        | none => .ok false
        | some c => .ok (sha1 c == h) := by
  unfold is_valid_file sha1_check_file
  cases hl : fs.lookup path with
  | none => simp [hl]
  | some c =>
    simp [hl, sha1AbsorbLoop_eq_append c.length c (Nat.le_refl _) []]

/-- C4 counterexample: with the store already holding the single asset
object with a matching digest, re-invoking the asset download still
performs one network request — the unconditional asset-index fetch — so
the operation does not perform zero requests. -/
theorem asset_refetch_requests_index :
    download_assets_requests constSha validAssetStore "g" "http://idx" ["aa"]
      = .ok ["http://idx"] ∧ (["http://idx"] : List String) ≠ [] := by
  refine ⟨?_, by simp⟩
  unfold download_assets_requests assetObjectsLoop
  rw [is_valid_file_eq]
  rfl

/-- Helper: when every asset object in the store is valid, the per-object
tasks issue no request. -/
theorem assetObjectsLoop_all_valid (sha1 : List Nat → String)
    (fs : FileStore) (game : String) :
    ∀ objects : List String,
      (∀ h ∈ objects,
        is_valid_file sha1 fs (assetObjectPath game h) h = .ok true) →
      assetObjectsLoop sha1 fs game objects = .ok [] := by
  intro objects
  induction objects with
  | nil => intro _; rfl
  | cons h rest ih =>
    intro hall
    have hv := hall h (List.mem_cons_self _ _)
    have ht := ih (fun x hx => hall x (List.mem_cons_of_mem _ hx))
    simp [assetObjectsLoop, hv, ht]

/-- Helper: a downloads-form library whose artifact and applicable natives
classifier are valid issues no request. -/
theorem download_library_requests_all_valid (sha1 : List Nat → String)
    (fs : FileStore) (p : Platform) (game : String) (l : DLibrary)
    (hurl : l.url = none)
    (hart : ∀ dd, l.downloads = some dd → ∀ a, dd.artifact = some a →
      is_valid_file sha1 fs (pathJoin [game, "libraries", a.path]) a.sha1
        = .ok true)
    (hnat : l.hasNatives = true → ∀ dd, l.downloads = some dd →
      ∃ cls, dd.classifiers = some cls ∧
        (∀ nat, cls.lookup ("natives-" ++ p.target) = some nat →
          is_valid_file sha1 fs
            (pathJoin [game, "libraries", nat.path]) nat.sha1 = .ok true) ∧
        (cls.lookup ("natives-" ++ p.target) = none →
          ∀ nat,
            cls.lookup ("natives-" ++ p.target ++ "-" ++ p.arch) = some nat →
            is_valid_file sha1 fs
              (pathJoin [game, "libraries", nat.path]) nat.sha1 = .ok true)) :
    download_library_requests sha1 fs p game l = .ok [] := by
  cases hdd : l.downloads with
  | none => simp [download_library_requests, hurl, hdd]
  | some dd =>
    cases ha : dd.artifact with
    | none =>
      cases hn : l.hasNatives with
      | false => simp [download_library_requests, hurl, hdd, ha, hn]
      | true =>
        obtain ⟨cls, hcls, hk, hka⟩ := hnat hn dd hdd
        cases hl1 : cls.lookup ("natives-" ++ p.target) with
        | some nat =>
          simp [download_library_requests, hurl, hdd, ha, hn, hcls, hl1,
            hk nat hl1]
        | none =>
          cases hl2 : cls.lookup ("natives-" ++ p.target ++ "-" ++ p.arch) with
          | none =>
            simp [download_library_requests, hurl, hdd, ha, hn, hcls, hl1, hl2]
          | some nat =>
            simp [download_library_requests, hurl, hdd, ha, hn, hcls, hl1,
              hl2, hka hl1 nat hl2]
    | some a =>
      have hva := hart dd hdd a ha
      cases hn : l.hasNatives with
      | false => simp [download_library_requests, hurl, hdd, ha, hn, hva]
      | true =>
        obtain ⟨cls, hcls, hk, hka⟩ := hnat hn dd hdd
        cases hl1 : cls.lookup ("natives-" ++ p.target) with
        | some nat =>
          simp [download_library_requests, hurl, hdd, ha, hn, hva, hcls, hl1,
            hk nat hl1]
        | none =>
          cases hl2 : cls.lookup ("natives-" ++ p.target ++ "-" ++ p.arch) with
          | none =>
            simp [download_library_requests, hurl, hdd, ha, hn, hva, hcls,
              hl1, hl2]
          | some nat =>
            simp [download_library_requests, hurl, hdd, ha, hn, hva, hcls,
              hl1, hl2, hka hl1 nat hl2]

/-- Helper: the library loop issues no request when no single library
does. -/
theorem download_libraries_requests_all_valid (sha1 : List Nat → String)
    (fs : FileStore) (p : Platform) (game : String) :
    ∀ libs : List DLibrary,
      (∀ l ∈ libs, download_library_requests sha1 fs p game l = .ok []) →
      download_libraries_requests sha1 fs p game libs = .ok [] := by
  intro libs
  induction libs with
  | nil => intro _; rfl
  | cons l rest ih =>
    intro hall
    have hv := hall l (List.mem_cons_self _ _)
    have ht := ih (fun x hx => hall x (List.mem_cons_of_mem _ hx))
    simp [download_libraries_requests, hv, ht]

/-- C4 amended: against a store in which every target file has a matching
integrity hash, re-invoking library download performs zero network
requests (absent legacy repository-form libraries, which carry no hash),
while re-invoking asset download performs exactly one request — the
unconditional asset-index refetch — and zero object downloads. -/
theorem fetch_idempotent_amended (sha1 : List Nat → String) (fs : FileStore)
    (p : Platform) (game indexUrl : String) (objects : List String)
    (libs : List DLibrary)
    (hobj : ∀ h ∈ objects,
      is_valid_file sha1 fs (assetObjectPath game h) h = .ok true)
    (hurl : ∀ l ∈ libs, l.url = none)
    (hart : ∀ l ∈ libs, ∀ dd, l.downloads = some dd →
      ∀ a, dd.artifact = some a →
      is_valid_file sha1 fs (pathJoin [game, "libraries", a.path]) a.sha1
        = .ok true)
    (hnat : ∀ l ∈ libs, l.hasNatives = true → ∀ dd, l.downloads = some dd →
      ∃ cls, dd.classifiers = some cls ∧
        (∀ nat, cls.lookup ("natives-" ++ p.target) = some nat →
          is_valid_file sha1 fs
            (pathJoin [game, "libraries", nat.path]) nat.sha1 = .ok true) ∧
        (cls.lookup ("natives-" ++ p.target) = none →
          ∀ nat,
            cls.lookup ("natives-" ++ p.target ++ "-" ++ p.arch) = some nat →
            is_valid_file sha1 fs
              (pathJoin [game, "libraries", nat.path]) nat.sha1 = .ok true)) :
    download_assets_requests sha1 fs game indexUrl objects = .ok [indexUrl] ∧
    download_libraries_requests sha1 fs p game libs = .ok [] := by
  constructor
  · have hs := assetObjectsLoop_all_valid sha1 fs game objects hobj
    simp [download_assets_requests, hs]
  · exact download_libraries_requests_all_valid sha1 fs p game libs
      (fun l hl => download_library_requests_all_valid sha1 fs p game l
        (hurl l hl) (hart l hl) (hnat l hl))

/-- Witness for C4's amended theorem: one already-valid asset object and
one already-valid artifact library on 64-bit windows. -/
theorem fetch_idempotent_amended_witness :
    ((∀ h ∈ (["aa"] : List String),
        is_valid_file constSha validLibStore (assetObjectPath "g" h) h
          = .ok true) ∧
     (∀ l ∈ [simpleLib], l.url = none) ∧
     (∀ l ∈ [simpleLib], ∀ dd, l.downloads = some dd →
        ∀ a, dd.artifact = some a →
        is_valid_file constSha validLibStore
          (pathJoin ["g", "libraries", a.path]) a.sha1 = .ok true) ∧
     (∀ l ∈ [simpleLib], l.hasNatives = true →
        ∀ dd, l.downloads = some dd →
        ∃ cls, dd.classifiers = some cls ∧
          (∀ nat, cls.lookup ("natives-" ++ (Platform.mk "windows" "64").target)
              = some nat →
            is_valid_file constSha validLibStore
              (pathJoin ["g", "libraries", nat.path]) nat.sha1 = .ok true) ∧
          (cls.lookup ("natives-" ++ (Platform.mk "windows" "64").target)
              = none →
            ∀ nat, cls.lookup ("natives-"
                ++ (Platform.mk "windows" "64").target ++ "-"
                ++ (Platform.mk "windows" "64").arch) = some nat →
              is_valid_file constSha validLibStore
                (pathJoin ["g", "libraries", nat.path]) nat.sha1
                = .ok true))) ∧
    (download_assets_requests constSha validLibStore "g" "u" ["aa"]
        = .ok ["u"] ∧
     download_libraries_requests constSha validLibStore ⟨"windows", "64"⟩
        "g" [simpleLib] = .ok []) := by
  have hobj : ∀ h ∈ (["aa"] : List String),
      is_valid_file constSha validLibStore (assetObjectPath "g" h) h
        = .ok true := by
    intro h hm
    rw [List.mem_singleton] at hm
    subst hm
    rw [is_valid_file_eq]
    rfl
  have hurl : ∀ l ∈ [simpleLib], l.url = none := by
    intro l hl
    rw [List.mem_singleton] at hl
    subst hl
    rfl
  have hart : ∀ l ∈ [simpleLib], ∀ dd, l.downloads = some dd →
      ∀ a, dd.artifact = some a →
      is_valid_file constSha validLibStore
        (pathJoin ["g", "libraries", a.path]) a.sha1 = .ok true := by
    intro l hl dd hdd a ha
    rw [List.mem_singleton] at hl
    subst hl
    injection hdd with h2
    subst h2
    injection ha with h3
    subst h3
    rw [is_valid_file_eq]
    rfl
  have hnat : ∀ l ∈ [simpleLib], l.hasNatives = true →
      ∀ dd, l.downloads = some dd →
      ∃ cls, dd.classifiers = some cls ∧
        (∀ nat, cls.lookup ("natives-" ++ (Platform.mk "windows" "64").target)
            = some nat →
          is_valid_file constSha validLibStore
            (pathJoin ["g", "libraries", nat.path]) nat.sha1 = .ok true) ∧
        (cls.lookup ("natives-" ++ (Platform.mk "windows" "64").target)
            = none →
          ∀ nat, cls.lookup ("natives-"
              ++ (Platform.mk "windows" "64").target ++ "-"
              ++ (Platform.mk "windows" "64").arch) = some nat →
            is_valid_file constSha validLibStore
              (pathJoin ["g", "libraries", nat.path]) nat.sha1 = .ok true) := by
    intro l hl hn
    rw [List.mem_singleton] at hl
    subst hl
    exact absurd hn (by decide)
  exact ⟨⟨hobj, hurl, hart, hnat⟩,
    fetch_idempotent_amended constSha validLibStore ⟨"windows", "64"⟩ "g" "u"
      ["aa"] [simpleLib] hobj hurl hart hnat⟩

end Argon
